import Mathlib

/-
  Verification development for the elevenlabs-go client library.

  Shallow embedding of the request executor (doRequest), query modifier
  composition, header construction, error classification, the history
  pagination cursor, and the multipart request body builder, translated
  from client.go and models.go.
-/

namespace ElevenLabs

/-- The JSON content type constant from client.go. -/
def contentTypeJSON : String := "application/json"

/-- The fixed API origin from client.go. -/
def elevenlabsBaseURL : String := "https://api.elevenlabs.io/v1"

/-!
## Query values

Go `url.Values` is `map[string][]string`; `Values.Add(key, value)` appends
`value` to the slice stored at `key`. We embed it as a key-ordered
association list from keys to value lists, with `add` appending to the
existing entry for the key (map semantics) and `get` returning the list
of values stored at a key (empty when absent).
-/

/-- Embedding of `url.Values`: an association list from query keys to the
ordered list of values added under that key. -/
def Values : Type := List (String × List String)

/-- The empty query value set (a fresh `url.Values`). -/
def Values.empty : Values := []

/-- Embedding of reading `url.Values[key]`: the ordered value list stored at
a key, empty when the key is absent. -/
def Values.get : Values → String → List String
  | [], _ => []
  | (k, vs) :: rest, key => if k = key then vs else Values.get rest key

/-- Embedding of `url.Values.Add(key, value)`: append `value` to the slice
stored at `key`, creating the entry when absent. -/
def Values.add : Values → String → String → Values
  | [], key, v => [(key, [v])]
  | (k, vs) :: rest, key, v =>
      if k = key then (k, vs ++ [v]) :: rest
      else (k, vs) :: Values.add rest key v

/-!
## Query modifiers

client.go defines four `QueryFunc` constructors; each one calls
`q.Add(key, value)` for a fixed key. We defunctionalize `QueryFunc` into
an inductive with one constructor per source constructor.
-/

/-- The query modifiers defined in client.go: `LatencyOptimizations`,
`WithSettings`, `PageSize` and `StartAfter`, defunctionalized. -/
inductive QueryMod where
  | latencyOptimizations (value : Int)
  | withSettings
  | pageSize (n : Int)
  | startAfter (id : String)
deriving DecidableEq, Repr

/-- Embedding of each `QueryFunc` body from client.go: every one performs a
single `q.Add(key, value)` on the passed query values. -/
def QueryMod.apply : QueryMod → Values → Values
  | .latencyOptimizations value, q => q.add "optimize_streaming_latency" (toString value)
  | .withSettings, q => q.add "with_settings" "true"
  | .pageSize n, q => q.add "page_size" (toString n)
  | .startAfter id, q => q.add "start_after_history_item_id" id

/-- The single key/value pair a query modifier adds. -/
def QueryMod.pair : QueryMod → String × String
  | .latencyOptimizations value => ("optimize_streaming_latency", toString value)
  | .withSettings => ("with_settings", "true")
  | .pageSize n => ("page_size", toString n)
  | .startAfter id => ("start_after_history_item_id", id)

/-- Embedding of the loop in doRequest (client.go lines 100-104): the query
modifiers are applied to the query values left to right. -/
def applyQueries (mods : List QueryMod) (q : Values) : Values :=
  mods.foldl (fun acc m => m.apply acc) q

/-!
## Error types

Translated from the error definitions file (APIError, APIErrorDetail,
ValidationError, ValidationErrorDetailItem and their Error methods).
-/

/-- Embedding of `APIErrorDetail`. -/
structure APIErrorDetail where
  status : String
  message : String
  additionalInfo : String
deriving DecidableEq, Repr

/-- Embedding of `APIError`. -/
structure APIError where
  detail : APIErrorDetail
deriving DecidableEq, Repr

/-- Embedding of `APIError.Error()`:
`fmt.Sprintf("api error - %s", e.Detail.Message)`. -/
def APIError.errorString (e : APIError) : String :=
  "api error - " ++ e.detail.message

/-- Embedding of `ValidationErrorDetailItem` (the `loc` segments are
normalized to strings by the custom location segment decoder). -/
structure ValidationErrorDetailItem where
  loc : List String
  msg : String
  type : String
deriving DecidableEq, Repr

/-- Embedding of `ValidationError`. The Go field is a pointer to a slice
(`*[]ValidationErrorDetailItem`), embedded as an optional list: `none`
models a nil pointer (e.g. decoded from a body with no detail key). -/
structure ValidationError where
  detail : Option (List ValidationErrorDetailItem)
deriving DecidableEq, Repr

/-- Embedding of `ValidationError.Error()`:
`fmt.Sprintf("validation error: %s", (*e.Detail)[0].Msg)`. The Go body
dereferences the pointer and indexes element 0 with no guard; `none` here
models the runtime panic (nil dereference or index out of range) that the
Go code raises when the detail pointer is nil or the list is empty. -/
def ValidationError.errorString : ValidationError → Option String
  | ⟨some (item :: _)⟩ => some ("validation error: " ++ item.msg)
  | _ => none

/-!
## Response classification

doRequest (client.go lines 113-133) reads the response body and branches
on the status code. JSON decoding is performed by `encoding/json`, which
is outside this repository, so the classifier is parametrized by the two
decoders (for the API error shape and the validation error shape) and by
`http.StatusText`.
-/

/-- An HTTP response as seen by doRequest after the transport call
succeeded: a numeric status code and the full body bytes. -/
structure HttpResponse where
  statusCode : Nat
  body : String
deriving DecidableEq, Repr

/-- The classified outcome of one doRequest exchange. -/
inductive DoRequestResult where
  | success (body : String)
  | apiErr (e : APIError)
  | valErr (e : ValidationError)
  | decodeFailure (msg : String)
  | unexpectedStatus (msg : String)
deriving DecidableEq, Repr

/-- Embedding of the status classification in doRequest (client.go lines
113-133): 200 copies the raw body to the caller sink; 400 and 401 decode
the body as `APIError`; 422 decodes it as `ValidationError`; a failed
decode is returned in place of the classified error; every other status
yields the formatted opaque error with no decode attempted. -/
def classifyResponse (decodeAPI : String → Except String APIError)
    (decodeVal : String → Except String ValidationError)
    (statusText : Nat → String) (resp : HttpResponse) : DoRequestResult :=
  if resp.statusCode = 200 then
    DoRequestResult.success resp.body
  else if resp.statusCode = 400 ∨ resp.statusCode = 401 then
    match decodeAPI resp.body with
    | Except.ok e => DoRequestResult.apiErr e
    | Except.error m => DoRequestResult.decodeFailure m
  else if resp.statusCode = 422 then
    match decodeVal resp.body with
    | Except.ok e => DoRequestResult.valErr e
    | Except.error m => DoRequestResult.decodeFailure m
  else
    DoRequestResult.unexpectedStatus
      ("unexpected HTTP status \"" ++ toString resp.statusCode ++ " "
        ++ statusText resp.statusCode ++ "\" returned from server")

/-!
## Request construction

doRequest (client.go lines 84-104) builds the outbound request: an Accept
header, a Content-Type header only when the supplied content type string
is non-empty, an xi-api-key header only when the client credential is
non-empty, and the query modifiers applied to the URL query values.
-/

/-- Embedding of the `Client` configuration fields used by doRequest
(the cancellation context is transport-level and not modelled). -/
structure Client where
  baseURL : String
  apiKey : String
  timeout : Nat
deriving DecidableEq, Repr

/-- Embedding of the header construction in doRequest (client.go lines
92-98), in source order: Accept always; Content-Type when the content
type string is non-empty; xi-api-key when the client credential is
non-empty. -/
def buildHeaders (apiKey contentType : String) : List (String × String) :=
  [("Accept", "*/*")]
    ++ (if contentType = "" then [] else [("Content-Type", contentType)])
    ++ (if apiKey = "" then [] else [("xi-api-key", apiKey)])

/-- The inputs one doRequest call receives from an endpoint method. -/
structure RequestInput where
  method : String
  url : String
  body : String
  contentType : String
  queries : List QueryMod
deriving Repr

/-- The observable outbound request doRequest constructs. Every endpoint
method builds its URL without a query string, so the initial query values
parsed from the URL are empty. -/
structure OutboundRequest where
  method : String
  url : String
  headers : List (String × String)
  query : Values

/-- Embedding of the request construction part of doRequest. -/
def buildOutbound (c : Client) (i : RequestInput) : OutboundRequest :=
  { method := i.method
    url := i.url
    headers := buildHeaders c.apiKey i.contentType
    query := applyQueries i.queries Values.empty }

/-- Embedding of one full doRequest exchange as a state transformer on the
client configuration: the constructed request and the classified outcome,
together with the client value after the call. The Go body never assigns
to any field of `c` and creates a fresh `http.Client` per call, so the
resulting client state is the input state. -/
def doRequest (c : Client) (decodeAPI : String → Except String APIError)
    (decodeVal : String → Except String ValidationError)
    (statusText : Nat → String) (i : RequestInput) (resp : HttpResponse) :
    (OutboundRequest × DoRequestResult) × Client :=
  ((buildOutbound c i, classifyResponse decodeAPI decodeVal statusText resp), c)

/-!
## History pagination

Translated from GetHistory (client.go lines 417-438) and the response
types in models.go. The network exchange plus JSON decode performed by
one listing call is abstracted as a server function from the applied
query values to either an error (transport or decode failure) or a
decoded `GetHistoryResponse`.
-/

/-- Embedding of `VoiceSettings` (models.go). -/
structure VoiceSettings where
  similarityBoost : Float
  stability : Float
  style : Float
  speakerBoost : Bool

/-- Embedding of `Feedback` (models.go). -/
structure Feedback where
  audioQuality : Bool
  emotions : Bool
  feedback : String
  glitches : Bool
  inaccurateClone : Bool
  other : Bool
  reviewStatus : Option String
  thumbsUp : Bool

/-- Embedding of `HistoryItem` (models.go). -/
structure HistoryItem where
  characterCountChangeFrom : Int
  characterCountChangeTo : Int
  contentType : String
  dateUnix : Int
  feedback : Feedback
  historyItemId : String
  modelId : String
  requestId : String
  settings : VoiceSettings
  shareLinkId : String
  state : String
  text : String
  voiceCategory : String
  voiceId : String
  voiceName : String

/-- Embedding of `GetHistoryResponse` (models.go). -/
structure GetHistoryResponse where
  history : List HistoryItem
  lastHistoryItemId : String
  hasMore : Bool

/-- Defunctionalization of the `nextPageFunc` closure built by GetHistory
(client.go lines 433-436): the closure captures exactly the last history
item id of the page just decoded (plus the client, carried here by the
server abstraction). Its behaviour is `NextHistoryPage.invoke`. -/
structure NextHistoryPage where
  lastHistoryItemId : String
deriving DecidableEq, Repr

/-- Embedding of one successful-transport GetHistory call (client.go lines
417-438): issue the listing request with the given query modifiers
applied, decode the response, and return it together with the
continuation: `none` when the decoded `has_more` flag is false, and the
next-page continuation capturing the last history item id when it is
true. An error from the exchange or the decode is propagated with no
continuation. -/
def getHistory (server : Values → Except String GetHistoryResponse)
    (queries : List QueryMod) :
    Except String (GetHistoryResponse × Option NextHistoryPage) :=
  match server (applyQueries queries Values.empty) with
  | Except.error e => Except.error e
  | Except.ok historyResp =>
      if !historyResp.hasMore then Except.ok (historyResp, none)
      else Except.ok (historyResp, some ⟨historyResp.lastHistoryItemId⟩)

/-- Embedding of invoking the `nextPageFunc` closure (client.go lines
433-436): the caller-supplied modifiers `qf` get `StartAfter(lastId)`
appended, and `GetHistory` is called again with exactly those modifiers.
The modifiers of the original call are not captured by the closure and
are not replayed. -/
def NextHistoryPage.invoke (server : Values → Except String GetHistoryResponse)
    (n : NextHistoryPage) (qf : List QueryMod) :
    Except String (GetHistoryResponse × Option NextHistoryPage) :=
  getHistory server (qf ++ [QueryMod.startAfter n.lastHistoryItemId])

/-!
## Multipart request body builder

Translated from `AddEditVoiceRequest.buildRequestBody` (models.go lines
228-275). File system access (`os.Open` + read), `filepath.Base`, label
JSON encoding (`encoding/json`) and the random multipart boundary are
outside the pure fragment and are supplied as parameters. The Go function
returns `(nil, "", wrapped error)` on any failure; the `Except.error`
case embeds that triple, so no body or content type exists on failure.
-/

/-- Embedding of `AddEditVoiceRequest` (models.go). The Go label map is
embedded as an association list. -/
structure AddEditVoiceRequest where
  name : String
  filePaths : List String
  description : String
  labels : List (String × String)

/-- One part written to the multipart body: a form field or a file part. -/
inductive MultipartPart where
  | field (name value : String)
  | filePart (fieldName fileName : String) (content : String)
deriving DecidableEq, Repr

/-- Embedding of the file loop in `buildRequestBody` (models.go lines
253-267): open each path in order, failing on the first unreadable path,
and append a `files` form part named after the path base name. -/
def readFileParts (fs : String → Option String) (base : String → String) :
    List String → Except String (List MultipartPart)
  | [] => Except.ok []
  | p :: ps =>
      match fs p with
      | none => Except.error ("open " ++ p ++ ": no such file or directory")
      | some content =>
          match readFileParts fs base ps with
          | Except.error e => Except.error e
          | Except.ok parts =>
              Except.ok (MultipartPart.filePart "files" (base p) content :: parts)

/-- Embedding of `AddEditVoiceRequest.buildRequestBody` (models.go lines
228-275): write the `name` field, the `description` field when non-empty,
the JSON-encoded `labels` field when the map is non-empty, then one
`files` part per path; any file failure aborts the build with a wrapped
error and no body or content type. -/
def AddEditVoiceRequest.buildRequestBody (fs : String → Option String)
    (base : String → String) (encodeLabels : List (String × String) → String)
    (boundary : String) (r : AddEditVoiceRequest) :
    Except String (List MultipartPart × String) :=
  let fieldParts :=
    [MultipartPart.field "name" r.name]
      ++ (if r.description = "" then [] else [MultipartPart.field "description" r.description])
      ++ (if r.labels = [] then []
          else [MultipartPart.field "labels" (encodeLabels r.labels)])
  match readFileParts fs base r.filePaths with
  | Except.error e => Except.error ("failed to build request body: " ++ e)
  | Except.ok fileParts =>
      Except.ok (fieldParts ++ fileParts, "multipart/form-data; boundary=" ++ boundary)

/-!
## Endpoint request descriptors

The per-endpoint wrappers instantiate doRequest with fixed arguments.
The two used in the theorems below are translated here.
-/

/-- The doRequest invocation made by `GetModels` (client.go line 209):
method GET, path `/models`, an empty body buffer, and the JSON content
type string. -/
def getModelsRequest (c : Client) : RequestInput :=
  { method := "GET"
    url := c.baseURL ++ "/models"
    body := ""
    contentType := contentTypeJSON
    queries := [] }

/-- The doRequest invocation made by `DeleteVoice` (client.go line 306):
method DELETE, an empty body buffer, and the JSON content type string. -/
def deleteVoiceRequest (c : Client) (voiceId : String) : RequestInput :=
  { method := "DELETE"
    url := c.baseURL ++ "/voices/" ++ voiceId
    body := ""
    contentType := contentTypeJSON
    queries := [] }

/-!
## Supporting lemmas
-/

/-- Adding a value under a key extends exactly the value list of that key
and leaves every other key unchanged. -/
theorem Values.get_add (q : Values) (k v key : String) :
    Values.get (Values.add q k v) key =
      if key = k then Values.get q key ++ [v] else Values.get q key := by
  induction q with
  | nil =>
      by_cases h : key = k
      · subst h
        simp [Values.add, Values.get]
      · have h1 : ¬k = key := fun hc => h hc.symm
        simp [Values.add, Values.get, h, h1]
  | cons hd tl ih =>
      obtain ⟨a, vs⟩ := hd
      by_cases hak : a = k
      · subst hak
        by_cases hk : a = key
        · subst hk
          simp [Values.add, Values.get]
        · have h1 : ¬key = a := fun hc => hk hc.symm
          simp [Values.add, Values.get, hk, h1]
      · by_cases hk : a = key
        · subst hk
          simp [Values.add, Values.get, hak]
        · simp [Values.add, Values.get, hak, hk, ih]

/-- Every source query modifier is a single `Add` of its key/value pair. -/
theorem QueryMod.apply_eq_add (m : QueryMod) (q : Values) :
    m.apply q = q.add m.pair.1 m.pair.2 := by
  cases m <;> rfl

/-!
## Claim theorems
-/

/-- Claim C6: applying an ordered sequence of query modifiers left to right
yields final query values in which, for every key, the value list is the
initial value list followed by the values the modifiers added under that
key, in modifier order — later additions of an already present key are
appended as additional entries, never replacing earlier ones. -/
theorem claimC6_query_modifiers_append (mods : List QueryMod) (q0 : Values)
    (key : String) :
    Values.get (applyQueries mods q0) key =
      Values.get q0 key
        ++ mods.filterMap
            (fun m => if m.pair.1 = key then some m.pair.2 else none) := by
  induction mods generalizing q0 with
  | nil => simp [applyQueries]
  | cons m ms ih =>
      have hstep : applyQueries (m :: ms) q0 = applyQueries ms (m.apply q0) := rfl
      rw [hstep, ih, QueryMod.apply_eq_add, Values.get_add]
      by_cases h : m.pair.1 = key
      · rw [if_pos h.symm, List.filterMap_cons, if_pos h]
        simp
      · rw [if_neg (fun hc => h hc.symm), List.filterMap_cons, if_neg h]

/-- Claim C4: doRequest attaches no xi-api-key header when the client
credential is the empty string, and attaches exactly the configured
credential as the xi-api-key header value when it is non-empty. -/
theorem claimC4_api_key_header (apiKey contentType : String) :
    (apiKey = "" → ∀ v, ("xi-api-key", v) ∉ buildHeaders apiKey contentType)
      ∧ (apiKey ≠ "" →
          ("xi-api-key", apiKey) ∈ buildHeaders apiKey contentType
            ∧ ∀ v, ("xi-api-key", v) ∈ buildHeaders apiKey contentType →
                v = apiKey) := by
  constructor
  · intro h v hv
    subst h
    by_cases hct : contentType = "" <;> simp [buildHeaders, hct] at hv
  · intro h
    constructor
    · by_cases hct : contentType = "" <;> simp [buildHeaders, hct, h]
    · intro v hv
      by_cases hct : contentType = "" <;> simp [buildHeaders, hct, h] at hv <;>
        exact hv

/-- Witness for claim C4 at concrete credentials. -/
theorem claimC4_witness :
    ("xi-api-key", "v") ∉ buildHeaders "" contentTypeJSON
      ∧ ("xi-api-key", "secret") ∈ buildHeaders "secret" contentTypeJSON :=
  ⟨(claimC4_api_key_header "" contentTypeJSON).1 rfl "v",
    ((claimC4_api_key_header "secret" contentTypeJSON).2 (by decide)).1⟩

/-- Claim C5: the string form of an APIError is `api error - ` followed by
the decoded detail message, and the string form of a ValidationError with
a decoded non-empty detail list is `validation error: ` followed by the
message of the first entry only, even when further entries are present. -/
theorem claimC5_error_strings (e : APIError) (v : ValidationError)
    (d : ValidationErrorDetailItem) (ds : List ValidationErrorDetailItem)
    (h : v.detail = some (d :: ds)) :
    e.errorString = "api error - " ++ e.detail.message
      ∧ v.errorString = some ("validation error: " ++ d.msg) := by
  refine ⟨rfl, ?_⟩
  obtain ⟨detail⟩ := v
  cases h
  rfl

/-- Witness for claim C5 with a two-entry validation detail list: only the
first message is surfaced. -/
theorem claimC5_witness :
    APIError.errorString ⟨⟨"needs_authorization", "oops", ""⟩⟩
        = "api error - " ++ "oops"
      ∧ ValidationError.errorString
          ⟨some [⟨["body", "text"], "field required", "value_error"⟩,
                 ⟨["body", "text"], "second issue", "value_error"⟩]⟩
        = some ("validation error: " ++ "field required") :=
  claimC5_error_strings ⟨⟨"needs_authorization", "oops", ""⟩⟩
    ⟨some [⟨["body", "text"], "field required", "value_error"⟩,
           ⟨["body", "text"], "second issue", "value_error"⟩]⟩
    ⟨["body", "text"], "field required", "value_error"⟩
    [⟨["body", "text"], "second issue", "value_error"⟩] rfl

/-- Claim C10: the ValidationError string form dereferences the detail
pointer and indexes the first list element with no guard: it is defined
(returns `validation error: ` plus the first message) exactly when the
detail pointer is non-nil and the list non-empty, and the access fails (a
runtime panic, modelled as `none`) when the pointer is nil or the list is
empty. -/
theorem claimC10_validation_error_partiality (v : ValidationError) :
    (v.detail = none → v.errorString = none)
      ∧ (v.detail = some [] → v.errorString = none)
      ∧ ∀ d ds, v.detail = some (d :: ds) →
          v.errorString = some ("validation error: " ++ d.msg) := by
  obtain ⟨detail⟩ := v
  refine ⟨?_, ?_, ?_⟩
  · intro h
    cases h
    rfl
  · intro h
    cases h
    rfl
  · intro d ds h
    cases h
    rfl

/-- Witness for claim C10 at the three concrete detail shapes. -/
theorem claimC10_witness :
    ValidationError.errorString ⟨none⟩ = none
      ∧ ValidationError.errorString ⟨some []⟩ = none
      ∧ ValidationError.errorString ⟨some [⟨["a"], "m1", "t"⟩]⟩
          = some ("validation error: " ++ "m1") :=
  ⟨(claimC10_validation_error_partiality ⟨none⟩).1 rfl,
    (claimC10_validation_error_partiality ⟨some []⟩).2.1 rfl,
    (claimC10_validation_error_partiality ⟨some [⟨["a"], "m1", "t"⟩]⟩).2.2
      ⟨["a"], "m1", "t"⟩ [] rfl⟩

/-- `http.StatusText` restricted to the one status the counterexample and
witness below use. -/
def statusText500 : Nat → String :=
  fun n => if n = 500 then "Internal Server Error" else ""

/-- A stub for the `encoding/json` API-error decoder: decodes one fixed
body and rejects everything else. -/
def apiDecoderStub : String → Except String APIError :=
  fun s =>
    if s = "api-ok" then Except.ok ⟨⟨"needs_authorization", "oops", ""⟩⟩
    else Except.error "invalid JSON"

/-- A stub for the `encoding/json` validation-error decoder: decodes one
fixed body and rejects everything else. -/
def valDecoderStub : String → Except String ValidationError :=
  fun s =>
    if s = "val-ok" then
      Except.ok ⟨some [⟨["body", "text"], "field required", "value_error"⟩]⟩
    else Except.error "invalid JSON"

/-- Counterexample to claim C1 as stated: at status 500 the opaque error
message produced by doRequest is not the claimed
`unexpected HTTP status "<code> <text>"` — the code appends
` returned from server` to it. -/
theorem claimC1_counterexample :
    classifyResponse apiDecoderStub valDecoderStub statusText500 ⟨500, ""⟩
        = DoRequestResult.unexpectedStatus
            "unexpected HTTP status \"500 Internal Server Error\" returned from server"
      ∧ classifyResponse apiDecoderStub valDecoderStub statusText500 ⟨500, ""⟩
          ≠ DoRequestResult.unexpectedStatus
              "unexpected HTTP status \"500 Internal Server Error\"" := by
  constructor
  · rfl
  · decide

/-- Claim C1 (amended): doRequest classifies every received response by
status: 200 succeeds with the raw body bytes for the caller sink; 400 and
401 return the body decoded as an APIError; 422 returns the body decoded
as a ValidationError; a failing decode of a 400/401/422 body is returned
in place of the classified error; and any other status returns the opaque
error `unexpected HTTP status "<code> <text>" returned from server` with
no body decoding attempted. -/
theorem claimC1_status_classification
    (dA : String → Except String APIError)
    (dV : String → Except String ValidationError)
    (st : Nat → String) (resp : HttpResponse) :
    (resp.statusCode = 200 →
        classifyResponse dA dV st resp = DoRequestResult.success resp.body)
      ∧ ((resp.statusCode = 400 ∨ resp.statusCode = 401) →
          (∀ e, dA resp.body = Except.ok e →
            classifyResponse dA dV st resp = DoRequestResult.apiErr e)
          ∧ ∀ m, dA resp.body = Except.error m →
              classifyResponse dA dV st resp = DoRequestResult.decodeFailure m)
      ∧ (resp.statusCode = 422 →
          (∀ e, dV resp.body = Except.ok e →
            classifyResponse dA dV st resp = DoRequestResult.valErr e)
          ∧ ∀ m, dV resp.body = Except.error m →
              classifyResponse dA dV st resp = DoRequestResult.decodeFailure m)
      ∧ (resp.statusCode ≠ 200 →
          ¬(resp.statusCode = 400 ∨ resp.statusCode = 401) →
          resp.statusCode ≠ 422 →
          classifyResponse dA dV st resp = DoRequestResult.unexpectedStatus
            ("unexpected HTTP status \"" ++ toString resp.statusCode ++ " "
              ++ st resp.statusCode ++ "\" returned from server")) := by
  refine ⟨?_, ?_, ?_, ?_⟩
  · intro h
    simp [classifyResponse, h]
  · intro h
    constructor
    · intro e he
      rcases h with h | h <;> simp [classifyResponse, h, he]
    · intro m hm
      rcases h with h | h <;> simp [classifyResponse, h, hm]
  · intro h
    constructor
    · intro e he
      simp [classifyResponse, h, he]
    · intro m hm
      simp [classifyResponse, h, hm]
  · intro h1 h2 h3
    simp only [classifyResponse, if_neg h1, if_neg h2, if_neg h3]

/-- Witness for claim C1 (amended) at four concrete responses: a success,
a decoded 401 API error, a 422 body whose decode fails, and a 500. -/
theorem claimC1_witness :
    classifyResponse apiDecoderStub valDecoderStub statusText500 ⟨200, "raw"⟩
        = DoRequestResult.success "raw"
      ∧ classifyResponse apiDecoderStub valDecoderStub statusText500 ⟨401, "api-ok"⟩
          = DoRequestResult.apiErr ⟨⟨"needs_authorization", "oops", ""⟩⟩
      ∧ classifyResponse apiDecoderStub valDecoderStub statusText500 ⟨422, "bad"⟩
          = DoRequestResult.decodeFailure "invalid JSON"
      ∧ classifyResponse apiDecoderStub valDecoderStub statusText500 ⟨500, ""⟩
          = DoRequestResult.unexpectedStatus
              ("unexpected HTTP status \"" ++ toString (500 : Nat) ++ " "
                ++ statusText500 500 ++ "\" returned from server") :=
  ⟨(claimC1_status_classification apiDecoderStub valDecoderStub statusText500
      ⟨200, "raw"⟩).1 rfl,
    ((claimC1_status_classification apiDecoderStub valDecoderStub statusText500
      ⟨401, "api-ok"⟩).2.1 (Or.inr rfl)).1 ⟨⟨"needs_authorization", "oops", ""⟩⟩
      rfl,
    ((claimC1_status_classification apiDecoderStub valDecoderStub statusText500
      ⟨422, "bad"⟩).2.2.1 rfl).2 "invalid JSON" rfl,
    (claimC1_status_classification apiDecoderStub valDecoderStub statusText500
      ⟨500, ""⟩).2.2.2 (by decide) (by decide) (by decide)⟩

/-- Claim C2: a successful GetHistory call returns an absent continuation
exactly when the decoded has_more flag is false, and a present cursor
exactly when it is true. -/
theorem claimC2_history_cursor
    (server : Values → Except String GetHistoryResponse)
    (queries : List QueryMod) (resp : GetHistoryResponse)
    (cur : Option NextHistoryPage)
    (h : getHistory server queries = Except.ok (resp, cur)) :
    cur = none ↔ resp.hasMore = false := by
  cases hs : server (applyQueries queries Values.empty) with
  | error e => simp [getHistory, hs] at h
  | ok r =>
      simp only [getHistory, hs] at h
      cases hr : r.hasMore <;> simp [hr] at h
      · obtain ⟨h1, h2⟩ := h
        subst h1
        subst h2
        simp [hr]
      · obtain ⟨h1, h2⟩ := h
        subst h1
        subst h2
        simp [hr]

/-- A history server always reporting no further pages, for the C2
witness. -/
def constHistoryServer : Values → Except String GetHistoryResponse :=
  fun _ => Except.ok ⟨[], "", false⟩

/-- Witness for claim C2: a page with has_more false yields an absent
continuation. -/
theorem claimC2_witness :
    (none : Option NextHistoryPage) = none
      ↔ GetHistoryResponse.hasMore ⟨[], "", false⟩ = false :=
  claimC2_history_cursor constHistoryServer [] ⟨[], "", false⟩ none rfl

/-- A history server that reports in its reply whether the request carried
a page_size query, and reports more pages until a start_after filter
arrives, for the C3 counterexample and witness. -/
def echoHistoryServer : Values → Except String GetHistoryResponse :=
  fun q =>
    Except.ok
      { history := []
        lastHistoryItemId :=
          if (Values.get q "page_size").isEmpty then "no-page-size"
          else "page-size-present"
        hasMore := (Values.get q "start_after_history_item_id").isEmpty }

/-- The last history item id of a GetHistory outcome, when successful. -/
def historyRespLastId :
    Except String (GetHistoryResponse × Option NextHistoryPage) → Option String
  | Except.ok (r, _) => some r.lastHistoryItemId
  | Except.error _ => none

/-- The continuation of a GetHistory outcome, when successful. -/
def historyRespCursor :
    Except String (GetHistoryResponse × Option NextHistoryPage) →
      Option NextHistoryPage
  | Except.ok (_, c) => c
  | Except.error _ => none

/-- Counterexample to claim C3 as stated: an initial GetHistory call with
PageSize(1) whose page has more items returns a continuation, but
invoking that continuation with no extra modifiers issues a request that
carries no page_size query at all (the server echoes `no-page-size`),
whereas a request built from the claimed modifier list — the original
modifiers plus the start_after filter — would carry it (the server echoes
`page-size-present`): the original modifiers are not replayed. -/
theorem claimC3_counterexample :
    historyRespCursor (getHistory echoHistoryServer [QueryMod.pageSize 1])
        = some ⟨"page-size-present"⟩
      ∧ historyRespLastId
          (NextHistoryPage.invoke echoHistoryServer ⟨"page-size-present"⟩ [])
        = some "no-page-size"
      ∧ historyRespLastId
          (getHistory echoHistoryServer
            ([QueryMod.pageSize 1] ++ []
              ++ [QueryMod.startAfter "page-size-present"]))
        = some "page-size-present" := by
  refine ⟨rfl, rfl, rfl⟩

/-- Claim C3 (amended): the continuation returned by a GetHistory call
captures only the last-seen history item id; invoking it with additional
modifiers issues a listing request whose applied query modifiers are the
continuation arguments plus an appended start_after filter for that id —
the modifiers of the original call are not replayed, so a page-size
preference from the first call does not persist unless re-supplied. -/
theorem claimC3_continuation
    (server : Values → Except String GetHistoryResponse)
    (queries : List QueryMod) (resp : GetHistoryResponse)
    (n : NextHistoryPage)
    (h : getHistory server queries = Except.ok (resp, some n)) :
    n.lastHistoryItemId = resp.lastHistoryItemId
      ∧ ∀ qf, n.invoke server qf =
          getHistory server
            (qf ++ [QueryMod.startAfter resp.lastHistoryItemId]) := by
  cases hs : server (applyQueries queries Values.empty) with
  | error e => simp [getHistory, hs] at h
  | ok r =>
      simp only [getHistory, hs] at h
      cases hr : r.hasMore <;> simp [hr] at h
      obtain ⟨h1, h2⟩ := h
      subst h1
      subst h2
      exact ⟨rfl, fun qf => rfl⟩

/-- Witness for claim C3 (amended): the continuation produced by an
initial call with PageSize(2) captures the last-seen item id of that
page. -/
theorem claimC3_witness :
    NextHistoryPage.lastHistoryItemId ⟨"page-size-present"⟩
      = GetHistoryResponse.lastHistoryItemId ⟨[], "page-size-present", true⟩ :=
  (claimC3_continuation echoHistoryServer [QueryMod.pageSize 2]
    ⟨[], "page-size-present", true⟩ ⟨"page-size-present"⟩ rfl).1

/-- A concrete client configuration for the C7 counterexample. -/
def sampleClient : Client :=
  { baseURL := elevenlabsBaseURL, apiKey := "test-key", timeout := 30 }

/-- Counterexample to claim C7 as stated: the GetModels endpoint call is a
GET with an empty body buffer, yet the request doRequest builds for it
does carry a Content-Type header — doRequest keys the header on the
supplied content type string, and every GET and DELETE endpoint call
supplies `application/json`. -/
theorem claimC7_counterexample :
    (getModelsRequest sampleClient).body = ""
      ∧ ("Content-Type", "application/json")
          ∈ (buildOutbound sampleClient (getModelsRequest sampleClient)).headers := by
  constructor
  · rfl
  · decide

/-- Claim C7 (amended): doRequest sets a Content-Type header exactly when
the supplied content type string is non-empty, with the supplied value;
the bodiless GET and DELETE endpoint calls (here GetModels and
DeleteVoice) supply `application/json`, so their requests do carry a
Content-Type header. -/
theorem claimC7_content_type (apiKey ct : String) (c : Client)
    (voiceId : String) :
    ((ct = "" → ∀ v, ("Content-Type", v) ∉ buildHeaders apiKey ct)
        ∧ (ct ≠ "" →
            ("Content-Type", ct) ∈ buildHeaders apiKey ct
              ∧ ∀ v, ("Content-Type", v) ∈ buildHeaders apiKey ct → v = ct))
      ∧ ("Content-Type", contentTypeJSON)
          ∈ (buildOutbound c (getModelsRequest c)).headers
      ∧ ("Content-Type", contentTypeJSON)
          ∈ (buildOutbound c (deleteVoiceRequest c voiceId)).headers := by
  refine ⟨⟨?_, ?_⟩, ?_, ?_⟩
  · intro h v hv
    subst h
    by_cases hk : apiKey = "" <;> simp [buildHeaders, hk] at hv
  · intro h
    constructor
    · by_cases hk : apiKey = "" <;> simp [buildHeaders, hk, h]
    · intro v hv
      by_cases hk : apiKey = "" <;> simp [buildHeaders, hk, h] at hv <;>
        exact hv
  · by_cases hk : c.apiKey = "" <;>
      simp [buildOutbound, getModelsRequest, buildHeaders, contentTypeJSON, hk]
  · by_cases hk : c.apiKey = "" <;>
      simp [buildOutbound, deleteVoiceRequest, buildHeaders, contentTypeJSON, hk]

/-- Witness for claim C7 (amended) at concrete header inputs. -/
theorem claimC7_witness :
    ("Content-Type", contentTypeJSON) ∈ buildHeaders "k" contentTypeJSON
      ∧ ("Content-Type", "v") ∉ buildHeaders "k" "" :=
  ⟨((claimC7_content_type "k" contentTypeJSON sampleClient "id").1.2
      (by decide)).1,
    (claimC7_content_type "k" "" sampleClient "id").1.1 rfl "v"⟩

/-- Every path list containing an unreadable path makes the file loop of
buildRequestBody fail. -/
theorem readFileParts_error_of_missing (fs : String → Option String)
    (base : String → String) (paths : List String) (p : String)
    (hp : p ∈ paths) (hf : fs p = none) :
    ∃ e, readFileParts fs base paths = Except.error e := by
  induction paths with
  | nil => cases hp
  | cons q qs ih =>
      cases hq : fs q with
      | none =>
          exact ⟨"open " ++ q ++ ": no such file or directory",
            by simp [readFileParts, hq]⟩
      | some c =>
          have hpq : p ∈ qs := by
            rcases List.mem_cons.mp hp with h | h
            · subst h
              rw [hf] at hq
              cases hq
            · exact h
          obtain ⟨e, he⟩ := ih hpq
          exact ⟨e, by simp [readFileParts, hq, he]⟩

/-- Claim C8: when any path in the FilePaths list of an AddEditVoiceRequest
cannot be opened or read, buildRequestBody returns a wrapped file-access
error and produces no request body or content type at all (the Go return
triple is nil buffer, empty content type, error — embedded as the error
alternative), so no partial multipart body reaches the executor. -/
theorem claimC8_multipart_failure (fs : String → Option String)
    (base : String → String) (encodeLabels : List (String × String) → String)
    (boundary : String) (r : AddEditVoiceRequest) (p : String)
    (hp : p ∈ r.filePaths) (hf : fs p = none) :
    (∃ e, r.buildRequestBody fs base encodeLabels boundary
        = Except.error ("failed to build request body: " ++ e))
      ∧ ∀ bodyParts ct,
          r.buildRequestBody fs base encodeLabels boundary
            ≠ Except.ok (bodyParts, ct) := by
  obtain ⟨e, he⟩ :=
    readFileParts_error_of_missing fs base r.filePaths p hp hf
  constructor
  · exact ⟨e, by simp [AddEditVoiceRequest.buildRequestBody, he]⟩
  · intro bodyParts ct hc
    rw [AddEditVoiceRequest.buildRequestBody, he] at hc
    cases hc

/-- The file system stub for the C8 witness: only `good.wav` exists. -/
def fsStub : String → Option String :=
  fun p => if p = "good.wav" then some "RIFF" else none

/-- The voice upload request for the C8 witness: its second path does not
exist. -/
def voiceReqStub : AddEditVoiceRequest :=
  { name := "my voice"
    filePaths := ["good.wav", "missing.wav"]
    description := ""
    labels := [] }

/-- Witness for claim C8: the stub request with a missing file builds no
multipart body. -/
theorem claimC8_witness :
    AddEditVoiceRequest.buildRequestBody fsStub (fun p => p) (fun _ => "")
        "bnd" voiceReqStub
      ≠ Except.ok ([], "multipart/form-data; boundary=bnd") :=
  (claimC8_multipart_failure fsStub (fun p => p) (fun _ => "") "bnd"
    voiceReqStub "missing.wav" (by decide) rfl).2
    [] "multipart/form-data; boundary=bnd"

/-- Claim C9: doRequest carries no hidden mutable state between calls: as
a state transformer on the client configuration it leaves the state
unchanged, so a second invocation with identical inputs against an
identical response — run from the state the first invocation left —
produces the same constructed request and the same classified outcome,
each a deterministic function of its inputs. -/
theorem claimC9_executor_stateless (c : Client)
    (dA : String → Except String APIError)
    (dV : String → Except String ValidationError)
    (st : Nat → String) (i : RequestInput) (resp : HttpResponse) :
    (doRequest c dA dV st i resp).1
        = (doRequest (doRequest c dA dV st i resp).2 dA dV st i resp).1
      ∧ (doRequest c dA dV st i resp).2 = c :=
  ⟨rfl, rfl⟩

end ElevenLabs
